import Mathlib

/-!
Shallow embedding of the RSI signal Discord bot (src/bot.py) and proofs
about its retry policy, RSI calculator wrapper, cycle orchestration and
schedule, checked against the natural-language specification.

External collaborators (the HTTP client, the stockstats rsi_14 indicator,
the Discord session and the cron scheduler) are modelled at their
boundary: the sequence of HTTP attempt outcomes is an environment
parameter, the indicator column is a black-box function parameter, and a
cron job is its registered minute field.
-/

namespace RsiBot

/-- One candle record as delivered by the market-data endpoint: five string
fields, any of which may be absent in a malformed row.  Only close is
consumed downstream (bot.py builds a DataFrame with these five columns and
reads only the close column). -/
structure Candle where
  timestamp : Option String
  openPrice : Option String
  high : Option String
  low : Option String
  close : Option String
  deriving Repr, DecidableEq

/-- The klines payload handed to the calculator: the dict data["result"].
The list field is none exactly when the "list" key is absent (for example
the empty dict returned for an unknown symbol). -/
structure KlinesPayload where
  list : Option (List Candle)
  deriving Repr, DecidableEq

/-- Value of a digit string, used by the model of float() parsing. -/
def digitsVal (cs : List Char) : Nat :=
  cs.foldl (fun a c => 10 * a + (c.toNat - 48)) 0

/-- Model of Python float(s) as invoked by astype(float) for plain decimal
numerals: optional sign, an integer part, and an optional fractional part.
Returns none when the string is not numeric, where astype(float) raises. -/
def parseFloat? (s : String) : Option Rat :=
  let cs := s.toList
  let signed : Bool × List Char :=
    match cs with
    | '-' :: r => (true, r)
    | '+' :: r => (false, r)
    | r => (false, r)
  let body := signed.2
  let intPart := body.takeWhile Char.isDigit
  let rest := body.dropWhile Char.isDigit
  let magnitude : Option Rat :=
    match rest with
    | [] => if intPart.isEmpty then none else some (digitsVal intPart : Rat)
    | '.' :: fr =>
      let fracPart := fr.takeWhile Char.isDigit
      let rest2 := fr.dropWhile Char.isDigit
      if rest2.isEmpty && !(intPart.isEmpty && fracPart.isEmpty) then
        some ((digitsVal intPart : Rat) +
          (digitsVal fracPart : Rat) / ((10 : Rat) ^ fracPart.length))
      else none
    | _ => none
  match magnitude with
  | none => none
  | some q => some (if signed.1 then -q else q)

/-- The df["close"].astype(float) step: every row must carry a close field
that parses as a float; a missing field or a non-numeric close raises in
the source, modelled as none here. -/
def parseCloses : List Candle → Option (List Rat)
  | [] => some []
  | c :: rest =>
    match c.close with
    | none => none
    | some s =>
      match parseFloat? s with
      | none => none
      | some q =>
        match parseCloses rest with
        | none => none
        | some qs => some (q :: qs)

/-- Python int() applied to a float: truncation toward zero. -/
def truncInt (q : Rat) : Int :=
  Int.tdiv q.num (q.den : Int)

/-- Shallow embedding of RsiCalculator.calculate_rsi (bot.py lines
101-127).  The stockstats rsi_14 indicator column is the external black
box rsiSeq, mapping the parsed closes to the per-row column where a none
cell stands for NaN; iloc[-1] reads the last cell, and int() of NaN
raises, which the surrounding handler turns into None.  Every exception
path of the source maps to none, so the Lean function is total: the
embedded calculator never raises. -/
def calculate_rsi (rsiSeq : List Rat → List (Option Rat))
    (klines : KlinesPayload) : Option Int :=
  match klines.list with
  | none => none
  | some [] => none
  | some (c :: cs) =>
    match parseCloses (c :: cs) with
    | none => none
    | some closes =>
      match (rsiSeq closes).getLast? with
      | none => none
      | some none => none
      | some (some q) => some (truncInt q)

/-- Per-fetcher configuration of KlineFetcher.__init__ (defaults
SOLUSDT, 60, 3, 60). -/
structure FetchConfig where
  symbol : String
  interval : String
  max_retries : Int
  retry_after_seconds : Nat

/-- Outcome of one HTTP GET issued inside fetch_klines: a 2xx response
with a well-formed body (raise_for_status passes and data["result"]
exists), an HTTPError with some status code, or any other exception
(network error, JSON parse error, missing "result" key). -/
inductive AttemptOutcome where
  | success (payload : KlinesPayload)
  | httpError (status : Nat)
  | otherError
  deriving Repr, DecidableEq

/-- Observable side effects of fetch_klines: an HTTP request issued, or a
time.sleep of the given number of seconds. -/
inductive FetchEvent where
  | request
  | sleep (seconds : Nat)
  deriving Repr, DecidableEq

/-- How fetch_klines terminates: returning the parsed payload, returning
None after the retry budget is spent, or re-raising a non-429 HTTPError
to the caller. -/
inductive FetchResult where
  | ok (payload : KlinesPayload)
  | notAvailable
  | raised (status : Nat)
  deriving Repr, DecidableEq

/-- The while-loop of KlineFetcher.fetch_klines (bot.py lines 74-97),
driven by the environment env giving the outcome of the i-th issued
request.  Returns the result together with the trace of requests and
sleeps, in order.  On 429 the source prints, sleeps
retry_after_seconds, increments retries and loops; on any other HTTPError
it re-raises; on any other exception it increments retries and loops with
no sleep; when retries < max_retries fails it prints and returns None. -/
def fetchGo (cfg : FetchConfig) (env : Nat → AttemptOutcome) (retries : Nat) :
    FetchResult × List FetchEvent :=
  if _h : (retries : Int) < cfg.max_retries then
    match env retries with
    | .success p => (.ok p, [.request])
    | .httpError s =>
      if s = 429 then
        let r := fetchGo cfg env (retries + 1)
        (r.1, .request :: .sleep cfg.retry_after_seconds :: r.2)
      else
        (.raised s, [.request])
    | .otherError =>
      let r := fetchGo cfg env (retries + 1)
      (r.1, .request :: r.2)
  else
    (.notAvailable, [])
termination_by (cfg.max_retries - retries).toNat
decreasing_by omega

/-- KlineFetcher.fetch_klines: the loop entered with retries = 0. -/
def fetch_klines (cfg : FetchConfig) (env : Nat → AttemptOutcome) :
    FetchResult × List FetchEvent :=
  fetchGo cfg env 0

/-- Outcome of one check cycle when it completes normally. -/
inductive CycleOutcome where
  | sent (msg : String)
  | noAlert
  | fetchFailed
  | calcFailed
  deriving Repr, DecidableEq

/-- Messages delivered by a cycle: at most one send can occur because the
source decides with a single if/elif on the RSI value. -/
def sentMessages : Except Nat CycleOutcome → List String
  | .ok (.sent m) => [m]
  | _ => []

/-- Shallow embedding of DiscordBot.check_rsi_and_notify (bot.py lines
148-165), fed with the termination mode of the fetch call and the
calculator in use.  The method installs no exception handler, so a
non-429 HTTPError re-raised by fetch_klines propagates to the caller,
modelled as Except.error carrying the status code; every other path
completes: None klines and None RSI are logged and end the cycle, and the
threshold decision sends at most one alert. -/
def check_rsi_and_notify (fetchRes : FetchResult)
    (calculator : KlinesPayload → Option Int) : Except Nat CycleOutcome :=
  match fetchRes with
  | .raised s => .error s
  | .notAvailable => .ok .fetchFailed
  | .ok payload =>
    match calculator payload with
    | none => .ok .calcFailed
    | some rsi =>
      if rsi > 70 then .ok (.sent ("RSI is overbought at " ++ toString rsi))
      else if rsi < 30 then .ok (.sent ("RSI is oversold at " ++ toString rsi))
      else .ok .noAlert

/-- Actions taken by DiscordBot.on_ready, in order. -/
inductive BotAction where
  | runCheck
  | armScheduler (cronMinute : Nat)
  deriving Repr, DecidableEq

/-- DiscordBot.on_ready (bot.py lines 142-146): one awaited
check_rsi_and_notify, then periodic_rsi_check is started as a task, which
registers one cron job with minute = 0 (bot.py lines 167-171). -/
def on_ready : List BotAction := [.runCheck, .armScheduler 0]

/-- The minute field periodic_rsi_check hands to
scheduler.add_job(check_rsi_and_notify, "cron", minute=0). -/
def periodic_rsi_check_minute : Nat := 0

/-- Semantics of a cron trigger with a fixed minute field: it fires at
exactly the wall-clock instants whose minute-of-hour equals the field.
Time t counts minutes since an arbitrary epoch aligned to hour zero. -/
def cronFires (minuteField : Nat) (t : Nat) : Bool :=
  t % 60 == minuteField

/-- Unfolding of fetchGo when the retry budget is exhausted. -/
theorem fetchGo_stop (cfg : FetchConfig) (env : Nat → AttemptOutcome)
    (retries : Nat) (h : ¬ (retries : Int) < cfg.max_retries) :
    fetchGo cfg env retries = (.notAvailable, []) := by
  rw [fetchGo.eq_def, dif_neg h]

/-- Unfolding of fetchGo for one loop iteration with budget remaining. -/
theorem fetchGo_step (cfg : FetchConfig) (env : Nat → AttemptOutcome)
    (retries : Nat) (h : (retries : Int) < cfg.max_retries) :
    fetchGo cfg env retries =
      match env retries with
      | .success p => (.ok p, [.request])
      | .httpError s =>
        if s = 429 then
          ((fetchGo cfg env (retries + 1)).1,
            .request :: .sleep cfg.retry_after_seconds ::
              (fetchGo cfg env (retries + 1)).2)
        else
          (.raised s, [.request])
      | .otherError =>
        ((fetchGo cfg env (retries + 1)).1,
          .request :: (fetchGo cfg env (retries + 1)).2) := by
  rw [fetchGo.eq_def, dif_pos h]

/-- When every attempt is rate limited, the loop issues one request and
one sleep per unit of remaining budget and then returns None. -/
theorem fetchGo_all429_aux (cfg : FetchConfig) (env : Nat → AttemptOutcome)
    (henv : ∀ i, env i = .httpError 429) :
    ∀ (n retries : Nat), (cfg.max_retries - retries).toNat = n →
      fetchGo cfg env retries =
        (.notAvailable,
          (List.replicate n
            [FetchEvent.request, FetchEvent.sleep cfg.retry_after_seconds]).flatten) := by
  intro n
  induction n with
  | zero =>
    intro retries hn
    rw [fetchGo_stop cfg env retries (by omega)]
    simp
  | succ n ih =>
    intro retries hn
    rw [fetchGo_step cfg env retries (by omega), henv retries,
      ih (retries + 1) (by omega)]
    simp [List.replicate_succ]

/-- When every attempt fails with a non-HTTP exception, the loop issues one
request per unit of remaining budget, sleeps never, and returns None. -/
theorem fetchGo_allOther_aux (cfg : FetchConfig) (env : Nat → AttemptOutcome)
    (henv : ∀ i, env i = .otherError) :
    ∀ (n retries : Nat), (cfg.max_retries - retries).toNat = n →
      fetchGo cfg env retries =
        (.notAvailable, List.replicate n FetchEvent.request) := by
  intro n
  induction n with
  | zero =>
    intro retries hn
    rw [fetchGo_stop cfg env retries (by omega)]
    simp
  | succ n ih =>
    intro retries hn
    rw [fetchGo_step cfg env retries (by omega), henv retries,
      ih (retries + 1) (by omega)]
    simp [List.replicate_succ]

/-- When no attempt yields an HTTP error other than 429, the loop never
re-raises: its result is ok or notAvailable. -/
theorem fetchGo_no_raise_aux (cfg : FetchConfig) (env : Nat → AttemptOutcome)
    (henv : ∀ i s, env i = .httpError s → s = 429) :
    ∀ (n retries : Nat), (cfg.max_retries - retries).toNat = n →
      ∀ s, (fetchGo cfg env retries).1 ≠ FetchResult.raised s := by
  intro n
  induction n with
  | zero =>
    intro retries hn s
    rw [fetchGo_stop cfg env retries (by omega)]
    simp
  | succ n ih =>
    intro retries hn s
    rw [fetchGo_step cfg env retries (by omega)]
    cases he : env retries with
    | success p => simp
    | httpError st =>
      have h429 : st = 429 := henv retries st he
      subst h429
      simpa using ih (retries + 1) (by omega) s
    | otherError =>
      simpa using ih (retries + 1) (by omega) s

/-- Each block of the 429 trace holds exactly one request event. -/
theorem count_request_join_replicate (n d : Nat) :
    ((List.replicate n
      [FetchEvent.request, FetchEvent.sleep d]).flatten).count FetchEvent.request = n := by
  induction n with
  | zero => rfl
  | succ n ih =>
    simp [List.replicate_succ, List.count_cons, ih]

/-- A cycle whose fetch does not re-raise always completes with a normal
outcome: None klines and None RSI are absorbed, and the threshold
decision always produces a result. -/
theorem check_completes_of_not_raised (fr : FetchResult)
    (calculator : KlinesPayload → Option Int)
    (h : ∀ s, fr ≠ FetchResult.raised s) :
    ∃ out, check_rsi_and_notify fr calculator = Except.ok out := by
  cases fr with
  | raised s => exact absurd rfl (h s)
  | notAvailable => exact ⟨.fetchFailed, rfl⟩
  | ok p =>
    cases hc : calculator p with
    | none => exact ⟨.calcFailed, by simp [check_rsi_and_notify, hc]⟩
    | some r =>
      by_cases h70 : r > 70
      · exact ⟨.sent ("RSI is overbought at " ++ toString r),
          by simp [check_rsi_and_notify, hc, h70]⟩
      · by_cases h30 : r < 30
        · exact ⟨.sent ("RSI is oversold at " ++ toString r),
            by simp [check_rsi_and_notify, hc, h70, h30]⟩
        · exact ⟨.noAlert, by simp [check_rsi_and_notify, hc, h70, h30]⟩

/-- A close field that is absent or fails to parse poisons the whole
astype(float) step. -/
theorem parseCloses_none_of_bad (cs : List Candle) (c : Candle)
    (hmem : c ∈ cs) (hbad : c.close.bind parseFloat? = none) :
    parseCloses cs = none := by
  induction cs with
  | nil => cases hmem
  | cons a rest ih =>
    rcases List.mem_cons.mp hmem with rfl | hmem2
    · cases hc : c.close with
      | none => simp [parseCloses, hc]
      | some s =>
        have hp : parseFloat? s = none := by simpa [hc] using hbad
        simp [parseCloses, hc, hp]
    · cases hc : a.close with
      | none => simp [parseCloses, hc]
      | some s =>
        cases hp : parseFloat? s with
        | none => simp [parseCloses, hc, hp]
        | some q => simp [parseCloses, hc, hp, ih hmem2]

/-- The two-candle fixture of test_calculate_rsi_success in src/tests.py
(closes 105 and 110), a series far shorter than 15 samples. -/
def twoCandleFixture : KlinesPayload :=
  ⟨some [⟨some "2024-06-23T12:00:00Z", some "100", some "110", some "90", some "105"⟩,
    ⟨some "2024-06-23T13:00:00Z", some "105", some "115", some "95", some "110"⟩]⟩

/-- C1: when every HTTP GET yields status 429, fetch_klines makes exactly
max_retries request attempts, sleeps retry_after_seconds seconds after
each attempt (hence between each pair of consecutive attempts), and then
returns NotAvailable (None) rather than raising: the full event trace is
max_retries blocks of one request followed by one sleep. -/
theorem fetch_klines_all_rate_limited (cfg : FetchConfig)
    (env : Nat → AttemptOutcome) (henv : ∀ i, env i = .httpError 429) :
    (fetch_klines cfg env).1 = .notAvailable ∧
    (fetch_klines cfg env).2 =
      (List.replicate cfg.max_retries.toNat
        [FetchEvent.request, FetchEvent.sleep cfg.retry_after_seconds]).flatten ∧
    (fetch_klines cfg env).2.count FetchEvent.request = cfg.max_retries.toNat := by
  have h := fetchGo_all429_aux cfg env henv cfg.max_retries.toNat 0 (by omega)
  unfold fetch_klines
  rw [h]
  exact ⟨rfl, rfl, count_request_join_replicate _ _⟩

/-- Witness for C1 at the default configuration: three attempts, a sleep
of 60 seconds after each, then None. -/
theorem fetch_klines_all_rate_limited_witness :
    (fetch_klines ⟨"SOLUSDT", "60", 3, 60⟩ (fun _ => .httpError 429)).1 =
        .notAvailable ∧
    (fetch_klines ⟨"SOLUSDT", "60", 3, 60⟩ (fun _ => .httpError 429)).2 =
      [FetchEvent.request, .sleep 60, .request, .sleep 60, .request, .sleep 60] := by
  have h := fetch_klines_all_rate_limited ⟨"SOLUSDT", "60", 3, 60⟩
    (fun _ => .httpError 429) (fun _ => rfl)
  exact ⟨h.1, by rw [h.2.1]; rfl⟩

/-- C2: a non-429 HTTPError at any attempt, whatever the remaining retry
budget, makes the fetch re-raise to its caller immediately: that
iteration issues exactly one request, no sleep occurs, and no further
attempt is made; in particular when the first attempt fails this way the
whole fetch_klines call re-raises after a single request. -/
theorem fetch_nonretryable_immediate (cfg : FetchConfig)
    (env : Nat → AttemptOutcome) (s : Nat) (hne : s ≠ 429) :
    (∀ retries : Nat, (retries : Int) < cfg.max_retries →
      env retries = .httpError s →
      fetchGo cfg env retries = (.raised s, [.request])) ∧
    (0 < cfg.max_retries → env 0 = .httpError s →
      fetch_klines cfg env = (.raised s, [.request])) := by
  constructor
  · intro retries hlt he
    rw [fetchGo_step cfg env retries hlt, he]
    simp [hne]
  · intro h0 he
    unfold fetch_klines
    rw [fetchGo_step cfg env 0 (by exact_mod_cast h0), he]
    simp [hne]

/-- Witness for C2: a permanent HTTP 500 with the default budget of three
re-raises after one request and no sleep. -/
theorem fetch_nonretryable_immediate_witness :
    fetch_klines ⟨"SOLUSDT", "60", 3, 60⟩ (fun _ => .httpError 500) =
      (.raised 500, [.request]) :=
  (fetch_nonretryable_immediate ⟨"SOLUSDT", "60", 3, 60⟩
    (fun _ => .httpError 500) 500 (by decide)).2 (by decide) rfl

/-- C8: a non-HTTP exception consumes one unit of the same retry budget
and the loop retries immediately: the iteration contributes exactly one
request event and no sleep before the next attempt, and when every
attempt fails this way the whole budget is spent on max_retries requests
with zero sleeps, returning None. -/
theorem fetch_transient_immediate_retry (cfg : FetchConfig)
    (env : Nat → AttemptOutcome) :
    (∀ retries : Nat, (retries : Int) < cfg.max_retries →
      env retries = .otherError →
      fetchGo cfg env retries =
        ((fetchGo cfg env (retries + 1)).1,
          .request :: (fetchGo cfg env (retries + 1)).2)) ∧
    ((∀ i, env i = .otherError) →
      fetch_klines cfg env =
        (.notAvailable, List.replicate cfg.max_retries.toNat FetchEvent.request)) := by
  constructor
  · intro retries hlt he
    rw [fetchGo_step cfg env retries hlt, he]
  · intro henv
    unfold fetch_klines
    exact fetchGo_allOther_aux cfg env henv cfg.max_retries.toNat 0 (by omega)

/-- Witness for C8: permanent network errors with the default budget give
three requests, no sleep, then None. -/
theorem fetch_transient_immediate_retry_witness :
    fetch_klines ⟨"SOLUSDT", "60", 3, 60⟩ (fun _ => .otherError) =
      (.notAvailable, [FetchEvent.request, .request, .request]) := by
  have h := (fetch_transient_immediate_retry ⟨"SOLUSDT", "60", 3, 60⟩
    (fun _ => .otherError)).2 (fun _ => rfl)
  rw [h]; rfl

/-- C10: with a zero or negative retry budget the loop body never runs:
fetch_klines returns None immediately, issuing no request and never
sleeping. -/
theorem fetch_klines_nonpositive_budget (cfg : FetchConfig)
    (env : Nat → AttemptOutcome) (h : cfg.max_retries ≤ 0) :
    fetch_klines cfg env = (.notAvailable, []) := by
  unfold fetch_klines
  exact fetchGo_stop cfg env 0 (by omega)

/-- Witness for C10: max_retries = 0 yields None with an empty trace even
when the endpoint would keep answering 429. -/
theorem fetch_klines_nonpositive_budget_witness :
    fetch_klines ⟨"SOLUSDT", "60", 0, 60⟩ (fun _ => .httpError 429) =
      (.notAvailable, []) :=
  fetch_klines_nonpositive_budget ⟨"SOLUSDT", "60", 0, 60⟩
    (fun _ => .httpError 429) (by decide)

/-- C3 (amended): when no fetch attempt yields an HTTP error other than
429, the cycle absorbs every failure — retry exhaustion, transient errors,
a None payload, a failed RSI computation and the threshold decision — and
check_rsi_and_notify completes without propagating an error.  A non-429
HTTPError, by contrast, escapes it (see the counterexample). -/
theorem check_cycle_contains_other_failures (cfg : FetchConfig)
    (env : Nat → AttemptOutcome) (calculator : KlinesPayload → Option Int)
    (hsafe : ∀ i s, env i = .httpError s → s = 429) :
    ∃ out, check_rsi_and_notify (fetch_klines cfg env).1 calculator =
      Except.ok out :=
  check_completes_of_not_raised (fetch_klines cfg env).1 calculator
    (fetchGo_no_raise_aux cfg env hsafe (cfg.max_retries - 0).toNat 0 rfl)

/-- Witness for the amended C3: a cycle whose every attempt is rate
limited still completes normally. -/
theorem check_cycle_contains_other_failures_witness :
    ∃ out, check_rsi_and_notify
      (fetch_klines ⟨"SOLUSDT", "60", 3, 60⟩ (fun _ => .httpError 429)).1
      (calculate_rsi (fun closes => closes.map some)) = Except.ok out :=
  check_cycle_contains_other_failures ⟨"SOLUSDT", "60", 3, 60⟩
    (fun _ => .httpError 429) (calculate_rsi (fun closes => closes.map some))
    (fun _ s h => by injection h with h2; exact h2.symm)

/-- C3 counterexample: with the default configuration and an endpoint that
answers HTTP 500, the fetch of the cycle re-raises on its first attempt
and the error escapes check_rsi_and_notify to its caller (the scheduler
or the on_ready handler), refuting the claim that no failure inside a
cycle ever propagates. -/
theorem check_cycle_error_propagates_cex :
    check_rsi_and_notify
      (fetch_klines ⟨"SOLUSDT", "60", 3, 60⟩ (fun _ => .httpError 500)).1
      (calculate_rsi (fun closes => closes.map some)) = Except.error 500 := by
  have h := fetchGo_step ⟨"SOLUSDT", "60", 3, 60⟩ (fun _ => .httpError 500) 0
    (by decide)
  unfold fetch_klines
  rw [h]
  rfl

/-- C4: the alert decision of check_rsi_and_notify is the pure strict
threshold function of the cycle's RSI integer: above 70 exactly the
overbought message is delivered, below 30 exactly the oversold message,
and anywhere in [30, 70] — in particular at 70 and at 30 — no alert; a
cycle delivers at most one message. -/
theorem check_decision_thresholds (p : KlinesPayload)
    (calculator : KlinesPayload → Option Int) (r : Int)
    (hc : calculator p = some r) :
    (r > 70 → check_rsi_and_notify (.ok p) calculator =
      .ok (.sent ("RSI is overbought at " ++ toString r))) ∧
    (r < 30 → check_rsi_and_notify (.ok p) calculator =
      .ok (.sent ("RSI is oversold at " ++ toString r))) ∧
    (30 ≤ r → r ≤ 70 →
      check_rsi_and_notify (.ok p) calculator = .ok .noAlert) ∧
    (sentMessages (check_rsi_and_notify (.ok p) calculator)).length ≤ 1 := by
  refine ⟨?_, ?_, ?_, ?_⟩
  · intro h70
    simp [check_rsi_and_notify, hc, h70]
  · intro h30
    have h70 : ¬ r > 70 := by omega
    simp [check_rsi_and_notify, hc, h70, h30]
  · intro hge hle
    have h70 : ¬ r > 70 := by omega
    have h30 : ¬ r < 30 := by omega
    simp [check_rsi_and_notify, hc, h70, h30]
  · by_cases h70 : r > 70
    · simp [check_rsi_and_notify, sentMessages, hc, h70]
    · by_cases h30 : r < 30
      · simp [check_rsi_and_notify, sentMessages, hc, h70, h30]
      · simp [check_rsi_and_notify, sentMessages, hc, h70, h30]

/-- Witness for C4: 71 triggers the overbought message and 70 triggers
nothing. -/
theorem check_decision_thresholds_witness :
    check_rsi_and_notify (.ok ⟨none⟩) (fun _ => some 71) =
      .ok (.sent "RSI is overbought at 71") ∧
    check_rsi_and_notify (.ok ⟨none⟩) (fun _ => some 70) = .ok .noAlert := by
  have h1 := check_decision_thresholds ⟨none⟩ (fun _ => some 71) 71 rfl
  have h2 := check_decision_thresholds ⟨none⟩ (fun _ => some 70) 70 rfl
  exact ⟨(h1.1 (by decide)).trans (by rfl),
    h2.2.2.1 (by decide) (by decide)⟩

/-- C5: the calculator maps every malformed input to None — a payload with
no "list" key, an empty candle list, a candle whose close field is
missing, and a close that does not parse as a float — and, being a total
function over these inputs, the embedded calculator never raises. -/
theorem calculate_rsi_malformed_none (rsiSeq : List Rat → List (Option Rat)) :
    (∀ k : KlinesPayload, k.list = none → calculate_rsi rsiSeq k = none) ∧
    (∀ k : KlinesPayload, k.list = some [] → calculate_rsi rsiSeq k = none) ∧
    (∀ (k : KlinesPayload) (cs : List Candle) (c : Candle),
      k.list = some cs → c ∈ cs → c.close = none →
      calculate_rsi rsiSeq k = none) ∧
    (∀ (k : KlinesPayload) (cs : List Candle) (c : Candle) (s : String),
      k.list = some cs → c ∈ cs → c.close = some s → parseFloat? s = none →
      calculate_rsi rsiSeq k = none) := by
  refine ⟨?_, ?_, ?_, ?_⟩
  · intro k hk
    simp [calculate_rsi, hk]
  · intro k hk
    simp [calculate_rsi, hk]
  · intro k cs c hk hmem hclose
    have hpc := parseCloses_none_of_bad cs c hmem (by simp [hclose])
    cases cs with
    | nil => cases hmem
    | cons hd tl => simp [calculate_rsi, hk, hpc]
  · intro k cs c s hk hmem hclose hpf
    have hpc := parseCloses_none_of_bad cs c hmem (by simp [hclose, hpf])
    cases cs with
    | nil => cases hmem
    | cons hd tl => simp [calculate_rsi, hk, hpc]

/-- Witness for C5 on the four malformed shapes: missing "list" key, empty
list, missing close field, non-numeric close. -/
theorem calculate_rsi_malformed_none_witness :
    calculate_rsi (fun closes => closes.map some) ⟨none⟩ = none ∧
    calculate_rsi (fun closes => closes.map some) ⟨some []⟩ = none ∧
    calculate_rsi (fun closes => closes.map some)
      ⟨some [⟨some "t", some "1", some "2", some "0", none⟩]⟩ = none ∧
    calculate_rsi (fun closes => closes.map some)
      ⟨some [⟨some "t", some "1", some "2", some "0", some "abc"⟩]⟩ = none := by
  have h := calculate_rsi_malformed_none (fun closes => closes.map some)
  refine ⟨h.1 ⟨none⟩ rfl, h.2.1 ⟨some []⟩ rfl, ?_, ?_⟩
  · exact h.2.2.1 ⟨some [⟨some "t", some "1", some "2", some "0", none⟩]⟩
      [⟨some "t", some "1", some "2", some "0", none⟩]
      ⟨some "t", some "1", some "2", some "0", none⟩
      rfl (List.mem_cons_self _ _) rfl
  · exact h.2.2.2 ⟨some [⟨some "t", some "1", some "2", some "0", some "abc"⟩]⟩
      [⟨some "t", some "1", some "2", some "0", some "abc"⟩]
      ⟨some "t", some "1", some "2", some "0", some "abc"⟩
      "abc" rfl (List.mem_cons_self _ _) rfl (by decide)

/-- C6 counterexample: the source applies no minimum-length check.  On the
repository's own two-candle success fixture (closes 105 and 110, far
fewer than 15 samples) with an indicator column ending in the cell 100,
calculate_rsi returns the number 100 rather than None, refuting the claim
that fewer than 15 samples yield InsufficientData; src/tests.py's
test_calculate_rsi_success likewise asserts a non-None result on this
very series. -/
theorem calculate_rsi_short_series_cex :
    (twoCandleFixture.list.getD []).length < 15 ∧
    calculate_rsi (fun closes => closes.map (fun _ => some (100 : Rat)))
      twoCandleFixture = some 100 := by
  constructor
  · decide
  · decide

/-- C6 (amended): the calculator enforces no minimum sample count: even
with fewer than 15 closing-price samples, whenever the closes parse and
the indicator column ends in a numeric cell, calculate_rsi returns that
cell's truncation rather than InsufficientData. -/
theorem calculate_rsi_no_min_length (rsiSeq : List Rat → List (Option Rat))
    (k : KlinesPayload) (c : Candle) (cs : List Candle)
    (closes : List Rat) (q : Rat)
    (_hlen : (c :: cs).length < 15)
    (hk : k.list = some (c :: cs))
    (hp : parseCloses (c :: cs) = some closes)
    (hq : (rsiSeq closes).getLast? = some (some q)) :
    calculate_rsi rsiSeq k = some (truncInt q) := by
  simp [calculate_rsi, hk, hp, hq]

/-- Witness for the amended C6 on the two-candle fixture. -/
theorem calculate_rsi_no_min_length_witness :
    calculate_rsi (fun closes => closes.map (fun _ => some (100 : Rat)))
      twoCandleFixture = some 100 := by
  have h := calculate_rsi_no_min_length
    (fun closes => closes.map (fun _ => some (100 : Rat))) twoCandleFixture
    ⟨some "2024-06-23T12:00:00Z", some "100", some "110", some "90", some "105"⟩
    [⟨some "2024-06-23T13:00:00Z", some "105", some "115", some "95", some "110"⟩]
    [105, 110] 100 (by decide) rfl (by decide) rfl
  exact h.trans (by decide)

/-- C7: whenever the computation succeeds, the result is the integer
truncation toward zero — not rounding — of the last value of the computed
indicator column, the cell of the most recent period; truncation sends
70.9 to 70. -/
theorem calculate_rsi_truncates_last (rsiSeq : List Rat → List (Option Rat))
    (k : KlinesPayload) (c : Candle) (cs : List Candle)
    (closes : List Rat) (q : Rat)
    (hk : k.list = some (c :: cs))
    (hp : parseCloses (c :: cs) = some closes)
    (hq : (rsiSeq closes).getLast? = some (some q)) :
    calculate_rsi rsiSeq k = some (truncInt q) ∧
    truncInt (mkRat 709 10) = 70 := by
  constructor
  · simp [calculate_rsi, hk, hp, hq]
  · decide

/-- Witness for C7: a single parsed candle and an indicator column ending
in 70.9 give RSI 70. -/
theorem calculate_rsi_truncates_last_witness :
    calculate_rsi (fun closes => closes.map (fun _ => some (mkRat 709 10)))
      ⟨some [⟨none, none, none, none, some "105"⟩]⟩ = some 70 := by
  have h := calculate_rsi_truncates_last
    (fun closes => closes.map (fun _ => some (mkRat 709 10)))
    ⟨some [⟨none, none, none, none, some "105"⟩]⟩
    ⟨none, none, none, none, some "105"⟩ [] [105] (mkRat 709 10)
    rfl (by decide) rfl
  exact h.1.trans (by decide)

/-- C9: on_ready runs exactly one immediate check and then arms the cron
schedule at minute zero; that trigger fires exactly at the wall-clock
instants aligned to an hour boundary — once per hour, at minute zero of
the hour, independent of when the process started. -/
theorem on_ready_hourly_schedule :
    on_ready = [BotAction.runCheck,
      BotAction.armScheduler periodic_rsi_check_minute] ∧
    List.count BotAction.runCheck on_ready = 1 ∧
    (∀ t, cronFires periodic_rsi_check_minute t = true ↔ t % 60 = 0) ∧
    (∀ hr m : Nat, m < 60 →
      (cronFires periodic_rsi_check_minute (60 * hr + m) = true ↔ m = 0)) := by
  refine ⟨rfl, by decide, ?_, ?_⟩
  · intro t
    simp [cronFires, periodic_rsi_check_minute]
  · intro hr m hm
    simp [cronFires, periodic_rsi_check_minute]
    omega

/-- Witness for C9: the trigger fires at the top of hour two and not five
minutes in. -/
theorem on_ready_hourly_schedule_witness :
    cronFires periodic_rsi_check_minute 120 = true ∧
    (cronFires periodic_rsi_check_minute (60 * 2 + 5) = true ↔ 5 = 0) := by
  have h := on_ready_hourly_schedule
  exact ⟨(h.2.2.1 120).mpr (by decide), h.2.2.2 2 5 (by decide)⟩

end RsiBot
